import Mathlib

/-!
Verification of the token lifecycle manager of the socivio backend
(`backend/app/user_tokens/adapter.py` together with the table declared in
`backend/app/db/models/user_tokens.py`).

The adapter is embedded shallowly:

* the database table `user_tokens` becomes a list of `UserTokenModel` records
  inside a `DB` structure (which also carries the autoincrement counter);
* timezone-aware timestamps become integers (seconds); `datetime.now` is an
  explicit `now : Int` argument; `timedelta.days` is floor division by 86400,
  matching Python's floored `timedelta` normalisation;
* outbound HTTP traffic is an explicit environment: the JSON body a provider
  answers with is a record of `Option` fields (a missing key in the Python
  dict is `none`, and `data["k"]` on a missing key is a `KeyError`);
* every Python exception becomes an explicit `PyError` value and fallible
  operations return `Except PyError _`.
-/

/-- `PlatformType` enum of `db/models/user_tokens.py`. -/
inductive PlatformType
  | youtube
  | facebook
  | tiktok
deriving DecidableEq, Repr

/-- One row of the `user_tokens` table (`UserTokenModel` in
`db/models/user_tokens.py`).  All columns that the adapter reads or writes
are present; `expires_at` is `nullable=False` in the schema, so it is a plain
`Int` here.  `created_at` is set by the database and never read by the
adapter, so it is omitted. -/
structure UserTokenModel where
  id : Nat
  user_id : Int
  external_id : String
  access_token : String
  refresh_token : Option String
  expires_at : Int
  platform : PlatformType
deriving DecidableEq, Repr

/-- The persisted store: the `user_tokens` rows plus the autoincrement
counter used for the `id` primary key of freshly inserted rows. -/
structure DB where
  rows : List UserTokenModel
  nextId : Nat
deriving DecidableEq, Repr

/-- A Python exception as observed by a caller of the adapter. -/
inductive PyError
  | httpException (status_code : Int) (detail : String)
  | keyError (key : String)
  | valueError (msg : String)
  | attributeError (msg : String)
deriving DecidableEq, Repr

/-- The token payload carried by `CreateUserToken` (`models/user_tokens.py`:
`YoutubeToken` has a mandatory refresh token, `FacebookToken` a `None` one;
both are subsumed by an optional field, exactly as the adapter consumes
them). -/
structure Tokens where
  access_token : String
  refresh_token : Option String
  expires_in : Int
deriving DecidableEq, Repr

/-- `CreateUserToken` of `models/user_tokens.py`. -/
structure CreateUserToken where
  user_id : Int
  external_id : String
  tokens : Tokens
  platform : PlatformType
deriving DecidableEq, Repr

/-- The lookup predicate of `create_user_token` (adapter.py lines 92-96):
rows matching the (user, external account, platform) triple. -/
def matchesTriple (uid : Int) (eid : String) (p : PlatformType)
    (r : UserTokenModel) : Bool :=
  r.user_id == uid && r.external_id == eid && r.platform == p

/-- Replace the first element satisfying `p` (the single ORM object returned
by `scalar_one_or_none`, mutated in place by the adapter). -/
def updateFirst (p : α → Bool) (f : α → α) : List α → List α
  | [] => []
  | x :: xs => if p x then f x :: xs else x :: updateFirst p f xs

/-- `UserTokenAdapter.create_user_token` (adapter.py lines 80-139).

Looks the triple up with `scalar_one_or_none`; if a row exists its
`access_token`, `refresh_token` and `expires_at` are overwritten in place,
otherwise a new row is inserted; `expires_at` is `now + expires_in`.
`scalar_one_or_none` raises `MultipleResultsFound` (an `SQLAlchemyError`)
when more than one row matches, which the adapter converts to
`HTTPException(500, "Failed to create user token")` after rolling back. -/
def create_user_token (now : Int) (ut : CreateUserToken) (db : DB) :
    Except PyError (DB × UserTokenModel) :=
  let expat := now + ut.tokens.expires_in
  let pred := matchesTriple ut.user_id ut.external_id ut.platform
  match db.rows.filter pred with
  | [] =>
      let newTok : UserTokenModel :=
        { id := db.nextId
          user_id := ut.user_id
          external_id := ut.external_id
          access_token := ut.tokens.access_token
          refresh_token := ut.tokens.refresh_token
          expires_at := expat
          platform := ut.platform }
      .ok ({ rows := db.rows ++ [newTok], nextId := db.nextId + 1 }, newTok)
  | [r] =>
      let r' : UserTokenModel :=
        { r with
          access_token := ut.tokens.access_token
          refresh_token := ut.tokens.refresh_token
          expires_at := expat }
      .ok ({ db with rows := updateFirst pred (fun _ => r') db.rows }, r')
  | _ :: _ :: _ =>
      .error (.httpException 500 "Failed to create user token")

/-- A sequence of successful ingests for one (user, platform, external id)
triple: each element carries the wall-clock instant of the call and the token
payload obtained from the provider; the resulting store state is threaded
through `create_user_token`. -/
def ingest_sequence (uid : Int) (eid : String) (p : PlatformType) :
    List (Int × Tokens) → DB → Except PyError DB
  | [], db => .ok db
  | (now, tks) :: rest, db =>
      match create_user_token now ⟨uid, eid, tks, p⟩ db with
      | .ok (db', _) => ingest_sequence uid eid p rest db'
      | .error e => .error e

/-- The JSON body answered by the Google token endpoint for a
refresh-token grant, as read by `refresh_youtube_token` (adapter.py lines
239-254): a status code and the fields the adapter inspects; a field absent
from the JSON object is `none`. -/
structure YoutubeRefreshResponse where
  status_code : Int
  access_token : Option String
  refresh_token : Option String
  expires_in : Option Int
deriving DecidableEq, Repr

/-- `UserTokenAdapter.refresh_youtube_token` (adapter.py lines 213-274).

A non-200 status raises `HTTPException(400, ...)`; a missing `access_token`
key raises `KeyError`, caught on line 264 and converted to the same
`HTTPException`; a new refresh token is installed only when `refresh_token`
is present in the response (lines 250-251); `expires_in` defaults to 3600
(line 253); the mutated ORM row is committed, i.e. written back to the
store.  Every failure path rolls back, leaving the store untouched. -/
def refresh_youtube_token (now : Int) (resp : YoutubeRefreshResponse)
    (db : DB) (token : UserTokenModel) :
    Except PyError (DB × UserTokenModel) :=
  if resp.status_code ≠ 200 then
    .error (.httpException 400 "Failed to refresh YouTube token")
  else
    match resp.access_token with
    | none => .error (.httpException 400 "Failed to refresh YouTube token")
    | some atk =>
        let rt : Option String :=
          match resp.refresh_token with
          | some r => some r
          | none => token.refresh_token
        let token' : UserTokenModel :=
          { token with
            access_token := atk
            refresh_token := rt
            expires_at := now + resp.expires_in.getD 3600 }
        .ok ({ db with
               rows := updateFirst (fun r => r.id == token.id)
                 (fun _ => token') db.rows }, token')

/-- The upstream world as seen by `get_tokens_by_user_id`: the response the
Google token endpoint gives to a refresh-token grant for a stored row, and
the outcome of the whole Facebook long-lived-token upgrade
(`refresh_facebook_token` → `_upgrade_to_long_lived`, which performs the
exchange, the "who am I" call and the upsert, and either returns the
upserted row or raises). -/
structure Env where
  youtubeRefresh : UserTokenModel → YoutubeRefreshResponse
  facebookUpgrade : UserTokenModel → Except PyError UserTokenModel

/-- The filter built by `get_tokens_by_user_id` (adapter.py lines 155-161):
always by user id, and by platform / external account id only when those
optional arguments are given. -/
def matchesFilter (uid : Int) (pf : Option PlatformType) (ef : Option String)
    (r : UserTokenModel) : Bool :=
  r.user_id == uid &&
    (match pf with | none => true | some p => r.platform == p) &&
    (match ef with | none => true | some e => r.external_id == e)

/-- The `for token in tokens` loop of `get_tokens_by_user_id` (adapter.py
lines 172-201), threading the store, the `refreshed_tokens` accumulator and
a count of upstream renewal attempts.

* YouTube rows with `now >= expires_at` are refreshed (`expires_at` is
  non-nullable, so the `token.expires_at` truthiness test on line 173 is
  always true); `refresh_youtube_token` either raises or returns a row, so
  the falsy branch on lines 178-180 is unreachable.
* Facebook rows with `(expires_at - now).days <= 10` (line 187; Python's
  `timedelta.days` floors, hence `Int.fdiv _ 86400`) trigger
  `refresh_facebook_token`.  If that raises, the exception propagates.  If
  it returns a row, line 192 `refreshed_tokens = await
  self.refresh_facebook_token(token)` rebinds the accumulator to that ORM
  row, and line 194 `refreshed_tokens.append(refreshed_tokens)` then raises
  `AttributeError` (`UserTokenModel` has no attribute `append`): the branch
  can never continue the loop.
* every other row is appended unchanged. -/
def tokensLoop (now : Int) (env : Env) :
    List UserTokenModel → DB → List UserTokenModel → Nat →
    Except PyError (DB × List UserTokenModel × Nat)
  | [], db, acc, n => .ok (db, acc, n)
  | t :: ts, db, acc, n =>
      if t.platform == PlatformType.youtube && t.expires_at ≤ now then
        match refresh_youtube_token now (env.youtubeRefresh t) db t with
        | .ok (db', t') => tokensLoop now env ts db' (acc ++ [t']) (n + 1)
        | .error e => .error e
      else if t.platform == PlatformType.facebook then
        if Int.fdiv (t.expires_at - now) 86400 ≤ 10 then
          match env.facebookUpgrade t with
          | .ok _ =>
              .error (.attributeError
                "UserTokenModel object has no attribute append")
          | .error e => .error e
        else tokensLoop now env ts db (acc ++ [t]) n
      else tokensLoop now env ts db (acc ++ [t]) n

/-- The `try` body of `get_tokens_by_user_id` (adapter.py lines 154-204):
filter the rows, raise `HTTPException(400, 'No tokens found')` on an empty
result (lines 166-168), otherwise run the refresh loop. -/
def get_tokens_body (now : Int) (env : Env) (db : DB) (uid : Int)
    (pf : Option PlatformType) (ef : Option String) :
    Except PyError (DB × List UserTokenModel × Nat) :=
  let tokens := db.rows.filter (matchesFilter uid pf ef)
  if tokens.isEmpty then
    .error (.httpException 400 "No tokens found")
  else
    tokensLoop now env tokens db [] 0

/-- `UserTokenAdapter.get_tokens_by_user_id` (adapter.py lines 142-211).

Unlike the adapter's other methods, this one has no
`except HTTPException: raise` clause, so the `except Exception` handler on
lines 209-211 catches every exception raised in the body — including the
`HTTPException`s raised on lines 168, 180 and 197 — and replaces it with
`HTTPException(400, 'Failed to get tokens')`. -/
def get_tokens_by_user_id (now : Int) (env : Env) (db : DB) (uid : Int)
    (pf : Option PlatformType) (ef : Option String) :
    Except PyError (DB × List UserTokenModel × Nat) :=
  match get_tokens_body now env db uid pf ef with
  | .ok r => .ok r
  | .error _ => .error (.httpException 400 "Failed to get tokens")

/-- `UserTokenAdapter.delete_users_all_tokens` (adapter.py lines 368-383):
`DELETE FROM user_tokens WHERE user_id = :uid`, commit, `return True`.  The
`except` clauses only re-raise database failures, which the pure store
cannot produce. -/
def delete_users_all_tokens (db : DB) (uid : Int) : DB × Bool :=
  ({ db with rows := db.rows.filter (fun r => !(r.user_id == uid)) }, true)

/-- Value of one base64 character.  `base64.urlsafe_b64decode` first
translates `-`→`+` and `_`→`/`, then decodes with the standard alphabet, so
both alphabets are accepted. -/
def b64Val (c : Char) : Option Nat :=
  if 'A' ≤ c ∧ c ≤ 'Z' then some (c.toNat - 65)
  else if 'a' ≤ c ∧ c ≤ 'z' then some (c.toNat - 97 + 26)
  else if '0' ≤ c ∧ c ≤ '9' then some (c.toNat - 48 + 52)
  else if c = '+' ∨ c = '-' then some 62
  else if c = '/' ∨ c = '_' then some 63
  else none

/-- Base64 decoding of a character list in blocks of four, producing bytes;
`=` padding is accepted only at the very end (one or two characters);
anything else fails, as `binascii` raises on malformed input. -/
def b64DecodeBlocks : List Char → Option (List Nat)
  | [] => some []
  | c1 :: c2 :: c3 :: c4 :: rest => do
      let v1 ← b64Val c1
      let v2 ← b64Val c2
      if c3 = '=' then
        if c4 = '=' ∧ rest = [] then some [v1 * 4 + v2 / 16] else none
      else do
        let v3 ← b64Val c3
        if c4 = '=' then
          if rest = [] then
            some [v1 * 4 + v2 / 16, (v2 % 16) * 16 + v3 / 4]
          else none
        else do
          let v4 ← b64Val c4
          let tail ← b64DecodeBlocks rest
          pure ([v1 * 4 + v2 / 16, (v2 % 16) * 16 + v3 / 4,
                 (v3 % 4) * 64 + v4] ++ tail)
  | _ => none

/-- `base64.urlsafe_b64decode` on a well-formed input: the decoded bytes, or
`none` where Python raises `binascii.Error`. -/
def urlsafe_b64decode (s : String) : Option (List Nat) :=
  b64DecodeBlocks s.data

/-- The padding computed on adapter.py line 428:
`"=" * (-len(payload) % 4)` — Python's `%` is nonnegative, so
`-n % 4 = (4 - n % 4) % 4`. -/
def pyPadLen (n : Nat) : Nat := (4 - n % 4) % 4

/-- `UserTokenAdapter.__decode_id_token` composed with the `["sub"]` lookup
on adapter.py line 57 (lines 419-433): split the identity token on `.`,
reject unless exactly three segments, pad the middle segment with `=` to a
multiple of four, base64url-decode it and read the subject field of the
decoded JSON object.

`jsonSub` stands for `json.loads(bytes.decode("utf-8"))["sub"]`: the
UTF-8/JSON decoding of the payload bytes and the subject lookup, which the
adapter and the specification describe identically, kept abstract because a
faithful `json.loads` is outside the shallow embedding; `none` is any
failure of that composite (`UnicodeDecodeError`, `JSONDecodeError`,
`KeyError`). -/
def decode_id_token (jsonSub : List Nat → Option String)
    (id_token : String) : Except PyError String :=
  match id_token.splitOn "." with
  | [_hdr, payload, _sig] =>
      let padded := payload ++
        String.mk (List.replicate (pyPadLen payload.length) '=')
      match urlsafe_b64decode padded with
      | none => .error (.valueError "binascii error")
      | some bytes =>
          match jsonSub bytes with
          | none => .error (.valueError "json error")
          | some s => .ok s
  | _ => .error (.valueError "Invalid ID token")

/-- Modelled from the spec's words (§4.1, identity resolution), for
comparison with `decode_id_token`: "a compact three-part signed token;
decode only the middle, payload segment — base64url, padded to a multiple
of 4 — and read a standardized subject-identifier field"; a token not made
of exactly three dot-separated segments is rejected (`none`).  The padding
here is stated the spec's way: no padding when the length is already a
multiple of four, otherwise exactly the `=` characters needed to reach the
next multiple of four. -/
def spec_subject_of_id_token (jsonSub : List Nat → Option String)
    (id_token : String) : Option String :=
  let parts := id_token.splitOn "."
  if parts.length = 3 then
    let payload := parts.getD 1 ""
    let k := if payload.length % 4 = 0 then 0 else 4 - payload.length % 4
    let padded := payload ++ String.mk (List.replicate k '=')
    (urlsafe_b64decode padded).bind jsonSub
  else none

/-- The JSON body answered by the Google token endpoint for the initial
authorization-code grant, as read by `request_youtube_tokens` (adapter.py
lines 50-63). -/
structure YoutubeTokenResponse where
  access_token : Option String
  refresh_token : Option String
  id_token : Option String
  expires_in : Option Int
deriving DecidableEq, Repr

/-- `UserTokenAdapter.request_youtube_tokens` (adapter.py lines 30-78),
starting from the token-endpoint response body.

A missing `access_token` raises `HTTPException(400, 'Failed to get access
token')` (lines 54-55).  Line 57 then evaluates
`self.__decode_id_token(data["id_token"])["sub"]`: a missing `id_token`
key is a `KeyError`, and a malformed token raises inside the decoder; the
`except` clauses on lines 73-78 re-raise every exception unchanged.  The
`YoutubeToken` construction on lines 59-63 reads `data["refresh_token"]`
and `data["expires_in"]`, each a `KeyError` when absent.  Only after all of
that does `create_user_token` run, so on every failure path the store is
returned unchanged (any store failure inside `create_user_token` also rolls
back). -/
def request_youtube_tokens (now : Int) (jsonSub : List Nat → Option String)
    (resp : YoutubeTokenResponse) (uid : Int) (db : DB) :
    DB × Except PyError UserTokenModel :=
  match resp.access_token with
  | none => (db, .error (.httpException 400 "Failed to get access token"))
  | some atk =>
      match resp.id_token with
      | none => (db, .error (.keyError "id_token"))
      | some idt =>
          match decode_id_token jsonSub idt with
          | .error e => (db, .error e)
          | .ok sub =>
              match resp.refresh_token with
              | none => (db, .error (.keyError "refresh_token"))
              | some rt =>
                  match resp.expires_in with
                  | none => (db, .error (.keyError "expires_in"))
                  | some ei =>
                      match create_user_token now
                          ⟨uid, sub, ⟨atk, some rt, ei⟩, .youtube⟩ db with
                      | .ok (db', tok) => (db', .ok tok)
                      | .error e => (db, .error e)

/-! ### List lemmas about `updateFirst` -/

/-- If nothing in `l` satisfies `p`, `updateFirst` is the identity. -/
theorem updateFirst_of_filter_nil {p : α → Bool} {f : α → α} {l : List α}
    (h : l.filter p = []) : updateFirst p f l = l := by
  induction l with
  | nil => rfl
  | cons x xs ih =>
      rw [List.filter_cons] at h
      by_cases hx : p x = true
      · rw [if_pos hx] at h
        exact absurd h (List.cons_ne_nil _ _)
      · rw [if_neg hx] at h
        simp [updateFirst, hx, ih h]

/-- `updateFirst` preserves length. -/
theorem length_updateFirst (p : α → Bool) (f : α → α) (l : List α) :
    (updateFirst p f l).length = l.length := by
  induction l with
  | nil => rfl
  | cons x xs ih =>
      by_cases hx : p x <;> simp [updateFirst, hx, ih]

/-- Replacing the single match of `p` by a value that still satisfies `p`
leaves exactly that value as the single match. -/
theorem filter_updateFirst_single {p : α → Bool} {l : List α} {r r' : α}
    (h : l.filter p = [r]) (hr' : p r' = true) :
    (updateFirst p (fun _ => r') l).filter p = [r'] := by
  induction l with
  | nil => simp at h
  | cons x xs ih =>
      rw [List.filter_cons] at h
      by_cases hx : p x = true
      · rw [if_pos hx] at h
        injection h with h1 h2
        simp [updateFirst, hx, List.filter_cons, hr', h2]
      · rw [if_neg hx] at h
        simp [updateFirst, hx, List.filter_cons, ih h]

/-! ### The upsert step -/

/-- One successful `create_user_token` call, starting from a store
respecting the uniqueness invariant for the triple: it succeeds, afterwards
exactly one row carries the triple, that row holds the ingested payload,
and a row is added only when the triple was absent (an existing row is
overwritten in place). -/
theorem create_user_token_step (now : Int) (ut : CreateUserToken) (db : DB)
    (h : (db.rows.filter
      (matchesTriple ut.user_id ut.external_id ut.platform)).length ≤ 1) :
    ∃ db' r, create_user_token now ut db = .ok (db', r) ∧
      db'.rows.filter (matchesTriple ut.user_id ut.external_id ut.platform)
        = [r] ∧
      r.access_token = ut.tokens.access_token ∧
      r.refresh_token = ut.tokens.refresh_token ∧
      r.expires_at = now + ut.tokens.expires_in ∧
      db'.rows.length = db.rows.length +
        (if db.rows.filter
            (matchesTriple ut.user_id ut.external_id ut.platform) = []
         then 1 else 0) := by
  rcases hf : db.rows.filter
      (matchesTriple ut.user_id ut.external_id ut.platform) with _ | ⟨r, rest⟩
  · simp only [create_user_token, hf]
    refine ⟨_, _, rfl, ?_, rfl, rfl, rfl, ?_⟩
    · simp [List.filter_append, hf, matchesTriple]
    · simp [hf]
  · rcases rest with _ | ⟨r2, rest⟩
    · have hr : matchesTriple ut.user_id ut.external_id ut.platform r
        = true := by
        have : r ∈ db.rows.filter
            (matchesTriple ut.user_id ut.external_id ut.platform) := by
          rw [hf]; exact List.mem_singleton_self r
        exact (List.mem_filter.mp this).2
      simp only [create_user_token, hf]
      refine ⟨_, _, rfl, ?_, rfl, rfl, rfl, ?_⟩
      · refine filter_updateFirst_single hf ?_
        simpa [matchesTriple] using hr
      · simp [hf, length_updateFirst]
    · rw [hf] at h
      simp at h

/-- C1: for every sequence of successful `ingest_grant` operations for the
same (user, platform, external_account_id) triple — written as a nonempty
list `init ++ [(lastNow, lastTks)]` of (call instant, provider payload)
pairs — starting from any store satisfying the uniqueness invariant for
that triple, the store afterwards contains exactly one record for the
triple, its access token, refresh token and expiry equal those of the most
recent ingest, and the row count grew only if the triple was initially
absent: an existing record is overwritten in place and no duplicate row is
ever created. -/
theorem C1_ingest_grant_uniqueness (uid : Int) (eid : String)
    (p : PlatformType) (init : List (Int × Tokens)) (lastNow : Int)
    (lastTks : Tokens) :
    ∀ db : DB, (db.rows.filter (matchesTriple uid eid p)).length ≤ 1 →
    ∃ db' r, ingest_sequence uid eid p (init ++ [(lastNow, lastTks)]) db
        = .ok db' ∧
      db'.rows.filter (matchesTriple uid eid p) = [r] ∧
      r.access_token = lastTks.access_token ∧
      r.refresh_token = lastTks.refresh_token ∧
      r.expires_at = lastNow + lastTks.expires_in ∧
      db'.rows.length = db.rows.length +
        (if db.rows.filter (matchesTriple uid eid p) = [] then 1 else 0) := by
  induction init with
  | nil =>
      intro db hinv
      obtain ⟨db1, r1, hc, hf1, ha1, hr1, he1, hl1⟩ :=
        create_user_token_step lastNow ⟨uid, eid, lastTks, p⟩ db hinv
      exact ⟨db1, r1, by simp [ingest_sequence, hc], hf1, ha1, hr1, he1, hl1⟩
  | cons hd tl ih =>
      intro db hinv
      obtain ⟨n0, t0⟩ := hd
      obtain ⟨db1, r1, hc, hf1, _, _, _, hl1⟩ :=
        create_user_token_step n0 ⟨uid, eid, t0, p⟩ db hinv
      obtain ⟨db2, r2, hseq, hf2, ha2, hr2, he2, hl2⟩ :=
        ih db1 (by rw [hf1]; simp)
      refine ⟨db2, r2, ?_, hf2, ha2, hr2, he2, ?_⟩
      · simpa [ingest_sequence, hc] using hseq
      · rw [hf1] at hl2
        simp at hl2
        rw [hl2, hl1]

/-- Witness for `C1_ingest_grant_uniqueness`: two successive ingests of the
same (7, youtube, "chan_1") triple into an empty store leave exactly one
record carrying the second payload. -/
theorem C1_ingest_grant_uniqueness_witness :
    ∃ db' r, ingest_sequence 7 "chan_1" PlatformType.youtube
        ([(0, ⟨"T1", some "R1", 3600⟩)] ++ [(4000, ⟨"T2", some "R2", 3600⟩)])
        ⟨[], 0⟩ = .ok db' ∧
      db'.rows.filter (matchesTriple 7 "chan_1" PlatformType.youtube)
        = [r] ∧
      r.access_token = "T2" ∧
      r.refresh_token = some "R2" ∧
      r.expires_at = 4000 + 3600 ∧
      db'.rows.length = (DB.mk [] 0).rows.length +
        (if (DB.mk [] 0).rows.filter
            (matchesTriple 7 "chan_1" PlatformType.youtube) = []
         then 1 else 0) :=
  C1_ingest_grant_uniqueness 7 "chan_1" PlatformType.youtube
    [(0, ⟨"T1", some "R1", 3600⟩)] 4000 ⟨"T2", some "R2", 3600⟩
    ⟨[], 0⟩ (by decide)

/-- The row value written and returned by a successful
`refresh_youtube_token`: new access token, refresh token replaced only when
the response carries one, expiry `now + expires_in` with the 3600-second
default. -/
def refreshedYoutube (now : Int) (resp : YoutubeRefreshResponse)
    (token : UserTokenModel) : UserTokenModel :=
  { token with
    access_token := resp.access_token.getD token.access_token
    refresh_token :=
      match resp.refresh_token with
      | some r => some r
      | none => token.refresh_token
    expires_at := now + resp.expires_in.getD 3600 }

/-- A 200 response carrying an access token makes `refresh_youtube_token`
succeed, returning the `refreshedYoutube` row and writing it over the
stored row with the same primary key. -/
theorem refresh_youtube_token_ok (now : Int) (resp : YoutubeRefreshResponse)
    (db : DB) (token : UserTokenModel) (hsc : resp.status_code = 200)
    (atk : String) (hat : resp.access_token = some atk) :
    refresh_youtube_token now resp db token =
      .ok ({ db with
             rows := updateFirst (fun r => r.id == token.id)
               (fun _ => refreshedYoutube now resp token) db.rows },
           refreshedYoutube now resp token) := by
  simp [refresh_youtube_token, refreshedYoutube, hsc, hat]

/-- C2: for a stored provider-A (YouTube) record, `get_credentials`
(`get_tokens_by_user_id`) renews upstream exactly when `now >= expires_at`:
a record with `now < expires_at` is returned unchanged with zero upstream
calls; an expired record triggers exactly one refresh-grant call, and —
when the endpoint answers 200 with an access token and a positive (or
absent, defaulting to 3600) `expires_in` — the returned credential's
`expires_at` is strictly greater than `now`. -/
theorem C2_youtube_refresh_iff_expired (now : Int) (env : Env) (db : DB)
    (uid : Int) (pf : Option PlatformType) (ef : Option String)
    (tok : UserTokenModel)
    (hplat : tok.platform = PlatformType.youtube)
    (hfilter : db.rows.filter (matchesFilter uid pf ef) = [tok]) :
    (now < tok.expires_at →
      get_tokens_by_user_id now env db uid pf ef = .ok (db, [tok], 0)) ∧
    (tok.expires_at ≤ now →
      (env.youtubeRefresh tok).status_code = 200 →
      ∀ atk, (env.youtubeRefresh tok).access_token = some atk →
      (∀ ei, (env.youtubeRefresh tok).expires_in = some ei → 0 < ei) →
      get_tokens_by_user_id now env db uid pf ef =
        .ok ({ db with
               rows := updateFirst (fun r => r.id == tok.id)
                 (fun _ =>
                   refreshedYoutube now (env.youtubeRefresh tok) tok)
                 db.rows },
             [refreshedYoutube now (env.youtubeRefresh tok) tok], 1) ∧
      (refreshedYoutube now (env.youtubeRefresh tok) tok).access_token
        = atk ∧
      now < (refreshedYoutube now (env.youtubeRefresh tok) tok).expires_at)
    := by
  constructor
  · intro hfresh
    have h1 : ¬ tok.expires_at ≤ now := not_le.mpr hfresh
    simp [get_tokens_by_user_id, get_tokens_body, hfilter, tokensLoop,
      hplat, h1]
  · intro hexp hsc atk hat hpos
    refine ⟨?_, ?_, ?_⟩
    · simp [get_tokens_by_user_id, get_tokens_body, hfilter, tokensLoop,
        hplat, hexp,
        refresh_youtube_token_ok now (env.youtubeRefresh tok) db tok hsc
          atk hat]
    · simp [refreshedYoutube, hat]
    · simp only [refreshedYoutube]
      rcases hei : (env.youtubeRefresh tok).expires_in with _ | ei
      · simp [hei]
      · have := hpos ei hei
        simp [hei]
        omega

/-- Witness for `C2_youtube_refresh_iff_expired`: a single stored YouTube
row for user 7, examined at `now = 0` while it expires at 100 (fresh) and
under a refresh environment answering 200/`"T2"`/3600. -/
theorem C2_youtube_refresh_iff_expired_witness :
    ((0:Int) <
        (UserTokenModel.mk 1 7 "chan" "T" (some "R") 100
          PlatformType.youtube).expires_at →
      get_tokens_by_user_id 0
        ⟨fun _ => ⟨200, some "T2", none, some 3600⟩,
         fun _ => .error (.valueError "na")⟩
        ⟨[UserTokenModel.mk 1 7 "chan" "T" (some "R") 100
            PlatformType.youtube], 2⟩
        7 (some PlatformType.youtube) none =
        .ok (⟨[UserTokenModel.mk 1 7 "chan" "T" (some "R") 100
              PlatformType.youtube], 2⟩,
          [UserTokenModel.mk 1 7 "chan" "T" (some "R") 100
            PlatformType.youtube], 0)) ∧
    ((UserTokenModel.mk 1 7 "chan" "T" (some "R") 100
        PlatformType.youtube).expires_at ≤ (0:Int) →
      (Env.youtubeRefresh
        ⟨fun _ => ⟨200, some "T2", none, some 3600⟩,
         fun _ => .error (.valueError "na")⟩
        (UserTokenModel.mk 1 7 "chan" "T" (some "R") 100
          PlatformType.youtube)).status_code = 200 →
      ∀ atk, (Env.youtubeRefresh
        ⟨fun _ => ⟨200, some "T2", none, some 3600⟩,
         fun _ => .error (.valueError "na")⟩
        (UserTokenModel.mk 1 7 "chan" "T" (some "R") 100
          PlatformType.youtube)).access_token = some atk →
      (∀ ei, (Env.youtubeRefresh
        ⟨fun _ => ⟨200, some "T2", none, some 3600⟩,
         fun _ => .error (.valueError "na")⟩
        (UserTokenModel.mk 1 7 "chan" "T" (some "R") 100
          PlatformType.youtube)).expires_in = some ei → 0 < ei) →
      get_tokens_by_user_id 0
        ⟨fun _ => ⟨200, some "T2", none, some 3600⟩,
         fun _ => .error (.valueError "na")⟩
        ⟨[UserTokenModel.mk 1 7 "chan" "T" (some "R") 100
            PlatformType.youtube], 2⟩
        7 (some PlatformType.youtube) none =
        .ok (⟨[refreshedYoutube 0 ⟨200, some "T2", none, some 3600⟩
              (UserTokenModel.mk 1 7 "chan" "T" (some "R") 100
                PlatformType.youtube)], 2⟩,
          [refreshedYoutube 0 ⟨200, some "T2", none, some 3600⟩
            (UserTokenModel.mk 1 7 "chan" "T" (some "R") 100
              PlatformType.youtube)], 1) ∧
      (refreshedYoutube 0 ⟨200, some "T2", none, some 3600⟩
        (UserTokenModel.mk 1 7 "chan" "T" (some "R") 100
          PlatformType.youtube)).access_token = atk ∧
      (0:Int) < (refreshedYoutube 0 ⟨200, some "T2", none, some 3600⟩
        (UserTokenModel.mk 1 7 "chan" "T" (some "R") 100
          PlatformType.youtube)).expires_at) := by
  have h := C2_youtube_refresh_iff_expired 0
    ⟨fun _ => ⟨200, some "T2", none, some 3600⟩,
     fun _ => .error (.valueError "na")⟩
    ⟨[UserTokenModel.mk 1 7 "chan" "T" (some "R") 100
        PlatformType.youtube], 2⟩
    7 (some PlatformType.youtube) none
    (UserTokenModel.mk 1 7 "chan" "T" (some "R") 100 PlatformType.youtube)
    rfl (by decide)
  exact h

/-- C4: when a provider-A refresh response (status 200, access token
present) omits `refresh_token`, `refresh_youtube_token` succeeds and both
the returned credential and the stored row keep the pre-renewal refresh
token, while access token and expiry are overwritten with the new values.
-/
theorem C4_refresh_token_carry_over (now : Int)
    (resp : YoutubeRefreshResponse) (db : DB) (tok : UserTokenModel)
    (hsc : resp.status_code = 200) (atk : String)
    (hat : resp.access_token = some atk)
    (hnort : resp.refresh_token = none)
    (hstored : db.rows.filter (fun r => r.id == tok.id) = [tok]) :
    ∃ db' tok', refresh_youtube_token now resp db tok = .ok (db', tok') ∧
      tok'.refresh_token = tok.refresh_token ∧
      tok'.access_token = atk ∧
      tok'.expires_at = now + resp.expires_in.getD 3600 ∧
      db'.rows.filter (fun r => r.id == tok.id) = [tok'] := by
  refine ⟨_, _, refresh_youtube_token_ok now resp db tok hsc atk hat,
    ?_, ?_, ?_, ?_⟩
  · simp [refreshedYoutube, hnort]
  · simp [refreshedYoutube, hat]
  · simp [refreshedYoutube]
  · refine filter_updateFirst_single hstored ?_
    simp [refreshedYoutube]

/-- Witness for `C4_refresh_token_carry_over`: refreshing the stored row
(1, 7, "chan", "T", "R", 50) with a 200 response `{access_token: "T2",
expires_in: 3600}` keeps `"R"`. -/
theorem C4_refresh_token_carry_over_witness :
    ∃ db' tok', refresh_youtube_token 60 ⟨200, some "T2", none, some 3600⟩
        ⟨[UserTokenModel.mk 1 7 "chan" "T" (some "R") 50
            PlatformType.youtube], 2⟩
        (UserTokenModel.mk 1 7 "chan" "T" (some "R") 50
          PlatformType.youtube) = .ok (db', tok') ∧
      tok'.refresh_token = (UserTokenModel.mk 1 7 "chan" "T" (some "R") 50
        PlatformType.youtube).refresh_token ∧
      tok'.access_token = "T2" ∧
      tok'.expires_at = 60 +
        (YoutubeRefreshResponse.mk 200 (some "T2") none
          (some 3600)).expires_in.getD 3600 ∧
      db'.rows.filter (fun r => r.id ==
        (UserTokenModel.mk 1 7 "chan" "T" (some "R") 50
          PlatformType.youtube).id) = [tok'] :=
  C4_refresh_token_carry_over 60 ⟨200, some "T2", none, some 3600⟩
    ⟨[UserTokenModel.mk 1 7 "chan" "T" (some "R") 50
        PlatformType.youtube], 2⟩
    (UserTokenModel.mk 1 7 "chan" "T" (some "R") 50 PlatformType.youtube)
    rfl "T2" rfl rfl (by decide)

/-- C5: when the filter matches zero stored records the body of
`get_tokens_by_user_id` raises `HTTPException(400, 'No tokens found')` (the
`NoCredentialsFound` error of the specification) and the call as a whole
raises an `HTTPException` — zero rows are promoted to an error; an empty
list is never returned. -/
theorem C5_no_credentials_error (now : Int) (env : Env) (db : DB)
    (uid : Int) (pf : Option PlatformType) (ef : Option String)
    (h : db.rows.filter (matchesFilter uid pf ef) = []) :
    get_tokens_body now env db uid pf ef =
      .error (.httpException 400 "No tokens found") ∧
    get_tokens_by_user_id now env db uid pf ef =
      .error (.httpException 400 "Failed to get tokens") := by
  constructor <;> simp [get_tokens_by_user_id, get_tokens_body, h]

/-- Witness for `C5_no_credentials_error`: an empty store. -/
theorem C5_no_credentials_error_witness :
    get_tokens_body 0
      ⟨fun _ => ⟨200, some "T2", none, some 3600⟩,
       fun _ => .error (.valueError "na")⟩
      ⟨[], 0⟩ 7 (some PlatformType.facebook) none =
      .error (.httpException 400 "No tokens found") ∧
    get_tokens_by_user_id 0
      ⟨fun _ => ⟨200, some "T2", none, some 3600⟩,
       fun _ => .error (.valueError "na")⟩
      ⟨[], 0⟩ 7 (some PlatformType.facebook) none =
      .error (.httpException 400 "Failed to get tokens") :=
  C5_no_credentials_error 0 _ _ 7 (some PlatformType.facebook) none
    (by decide)

/-- C6 fails on the code: because `get_tokens_by_user_id` has no
`except HTTPException: raise` clause, its blanket `except Exception`
handler rewraps the zero-rows error and the renewal-failure error into the
very same `HTTPException(400, 'Failed to get tokens')` — a caller cannot
distinguish them.  This theorem exhibits the identical error value in the
two scenarios. -/
theorem C6_errors_not_distinct (now : Int) (env : Env)
    (db1 : DB) (uid1 : Int) (pf1 : Option PlatformType) (ef1 : Option String)
    (db2 : DB) (uid2 : Int) (pf2 : Option PlatformType) (ef2 : Option String)
    (tok : UserTokenModel)
    (h1 : db1.rows.filter (matchesFilter uid1 pf1 ef1) = [])
    (h2 : db2.rows.filter (matchesFilter uid2 pf2 ef2) = [tok])
    (hplat : tok.platform = PlatformType.youtube)
    (hexp : tok.expires_at ≤ now)
    (hfail : (env.youtubeRefresh tok).status_code ≠ 200) :
    get_tokens_by_user_id now env db1 uid1 pf1 ef1 =
      .error (.httpException 400 "Failed to get tokens") ∧
    get_tokens_by_user_id now env db2 uid2 pf2 ef2 =
      .error (.httpException 400 "Failed to get tokens") := by
  constructor
  · simp [get_tokens_by_user_id, get_tokens_body, h1]
  · simp [get_tokens_by_user_id, get_tokens_body, h2, tokensLoop, hplat,
      hexp, refresh_youtube_token, hfail]

/-- Witness for `C6_errors_not_distinct`: user 7 with no rows, and user 8
with one expired YouTube row whose refresh attempt is answered 500. -/
theorem C6_errors_not_distinct_witness :
    get_tokens_by_user_id 100
      ⟨fun _ => ⟨500, none, none, none⟩, fun _ => .error (.valueError "na")⟩
      ⟨[], 0⟩ 7 none none =
      .error (.httpException 400 "Failed to get tokens") ∧
    get_tokens_by_user_id 100
      ⟨fun _ => ⟨500, none, none, none⟩, fun _ => .error (.valueError "na")⟩
      ⟨[UserTokenModel.mk 1 8 "chan" "T" (some "R") 50
          PlatformType.youtube], 2⟩ 8 none none =
      .error (.httpException 400 "Failed to get tokens") :=
  C6_errors_not_distinct 100
    ⟨fun _ => ⟨500, none, none, none⟩, fun _ => .error (.valueError "na")⟩
    ⟨[], 0⟩ 7 none none
    ⟨[UserTokenModel.mk 1 8 "chan" "T" (some "R") 50
        PlatformType.youtube], 2⟩ 8 none none
    (UserTokenModel.mk 1 8 "chan" "T" (some "R") 50 PlatformType.youtube)
    (by decide) (by decide) rfl (by decide) (by decide)

/-- C3 fails on the code: the grace-window trigger itself fires whenever
`(expires_at - now).days <= 10` (line 187), but when it fires and the
upstream upgrade succeeds, line 192 rebinds the `refreshed_tokens`
accumulator to the returned ORM row and line 194 `.append` on that row
raises `AttributeError`, so `get_tokens_by_user_id` raises
`HTTPException(400, 'Failed to get tokens')` instead of returning the
renewed credential.  Outside the window (more than 10 whole days left) the
record is returned untouched with no renewal attempt. -/
theorem C3_facebook_grace_window_bug (now : Int) (env : Env) (db : DB)
    (uid : Int) (pf : Option PlatformType) (ef : Option String)
    (tok : UserTokenModel)
    (hplat : tok.platform = PlatformType.facebook)
    (hfilter : db.rows.filter (matchesFilter uid pf ef) = [tok]) :
    (Int.fdiv (tok.expires_at - now) 86400 ≤ 10 →
      ∀ tokR, env.facebookUpgrade tok = .ok tokR →
      get_tokens_by_user_id now env db uid pf ef =
        .error (.httpException 400 "Failed to get tokens")) ∧
    (10 < Int.fdiv (tok.expires_at - now) 86400 →
      get_tokens_by_user_id now env db uid pf ef = .ok (db, [tok], 0)) := by
  constructor
  · intro hdays tokR hup
    simp [get_tokens_by_user_id, get_tokens_body, hfilter, tokensLoop,
      hplat, hdays, hup]
  · intro hdays
    have h1 : ¬ Int.fdiv (tok.expires_at - now) 86400 ≤ 10 :=
      not_le.mpr hdays
    simp [get_tokens_by_user_id, get_tokens_body, hfilter, tokensLoop,
      hplat, h1]

/-- Witness for `C3_facebook_grace_window_bug`: a Facebook row expiring in
exactly 5 days sits inside the grace window, its renewal succeeds
upstream, yet the read fails; the same theorem applied to a row expiring in
20 days (second conjunct) returns it untouched. -/
theorem C3_facebook_grace_window_bug_witness :
    (Int.fdiv ((UserTokenModel.mk 1 7 "page" "T" none (5 * 86400)
        PlatformType.facebook).expires_at - 0) 86400 ≤ 10 →
      ∀ tokR, Env.facebookUpgrade
        ⟨fun _ => ⟨200, some "T2", none, some 3600⟩,
         fun t => .ok { t with access_token := "T2" }⟩
        (UserTokenModel.mk 1 7 "page" "T" none (5 * 86400)
          PlatformType.facebook) = .ok tokR →
      get_tokens_by_user_id 0
        ⟨fun _ => ⟨200, some "T2", none, some 3600⟩,
         fun t => .ok { t with access_token := "T2" }⟩
        ⟨[UserTokenModel.mk 1 7 "page" "T" none (5 * 86400)
            PlatformType.facebook], 2⟩ 7 (some PlatformType.facebook) none =
        .error (.httpException 400 "Failed to get tokens")) ∧
    (10 < Int.fdiv ((UserTokenModel.mk 1 7 "page" "T" none (5 * 86400)
        PlatformType.facebook).expires_at - 0) 86400 →
      get_tokens_by_user_id 0
        ⟨fun _ => ⟨200, some "T2", none, some 3600⟩,
         fun t => .ok { t with access_token := "T2" }⟩
        ⟨[UserTokenModel.mk 1 7 "page" "T" none (5 * 86400)
            PlatformType.facebook], 2⟩ 7 (some PlatformType.facebook) none =
        .ok (⟨[UserTokenModel.mk 1 7 "page" "T" none (5 * 86400)
            PlatformType.facebook], 2⟩,
          [UserTokenModel.mk 1 7 "page" "T" none (5 * 86400)
            PlatformType.facebook], 0)) :=
  C3_facebook_grace_window_bug 0
    ⟨fun _ => ⟨200, some "T2", none, some 3600⟩,
     fun t => .ok { t with access_token := "T2" }⟩
    ⟨[UserTokenModel.mk 1 7 "page" "T" none (5 * 86400)
        PlatformType.facebook], 2⟩ 7 (some PlatformType.facebook) none
    (UserTokenModel.mk 1 7 "page" "T" none (5 * 86400)
      PlatformType.facebook)
    rfl (by decide)

/-- Counterexample to C7 as stated: `delete_users_all_tokens` answers the
constant boolean `true` whether it removed one record or two, so its return
value is not (and cannot encode) the count of records removed. -/
theorem C7_count_counterexample :
    (delete_users_all_tokens
      ⟨[UserTokenModel.mk 1 1 "a" "T1" none 10 PlatformType.youtube,
        UserTokenModel.mk 2 1 "b" "T2" none 10 PlatformType.facebook],
       3⟩ 1).2 = true ∧
    (delete_users_all_tokens
      ⟨[UserTokenModel.mk 1 1 "a" "T1" none 10 PlatformType.youtube],
       2⟩ 1).2 = true ∧
    ((List.filter (fun r => r.user_id == 1)
      [UserTokenModel.mk 1 1 "a" "T1" none 10 PlatformType.youtube,
       UserTokenModel.mk 2 1 "b" "T2" none 10
         PlatformType.facebook]).length = 2 ∧
     (List.filter (fun r => r.user_id == 1)
      [UserTokenModel.mk 1 1 "a" "T1" none 10
         PlatformType.youtube]).length = 1) := by
  refine ⟨rfl, rfl, by decide, by decide⟩

/-- C7 as amended: `delete_all` / `revoke_all`
(`delete_users_all_tokens`) removes every credential record belonging to
the user across all platforms — afterwards any find filtered to that user
matches zero records, whatever platform or external-id filter is applied —
and it leaves every other user's records in place; it returns the boolean
`true`, not the count of records removed. -/
theorem C7_delete_all_amended (db : DB) (uid : Int) :
    (delete_users_all_tokens db uid).2 = true ∧
    (delete_users_all_tokens db uid).1.rows.filter
      (fun r => r.user_id == uid) = [] ∧
    (∀ pf ef, (delete_users_all_tokens db uid).1.rows.filter
      (matchesFilter uid pf ef) = []) ∧
    (∀ r ∈ db.rows, r.user_id ≠ uid →
      r ∈ (delete_users_all_tokens db uid).1.rows) := by
  refine ⟨rfl, ?_, ?_, ?_⟩
  · rw [List.filter_eq_nil_iff]
    intro a ha
    have h := (List.mem_filter.mp ha).2
    simp at h ⊢
    exact h
  · intro pf ef
    rw [List.filter_eq_nil_iff]
    intro a ha
    have h := (List.mem_filter.mp ha).2
    simp at h
    simp [matchesFilter, h]
  · intro r hr hne
    exact List.mem_filter.mpr ⟨hr, by simp [hne]⟩

/-- Witness for `C7_delete_all_amended`: deleting user 1's two records
from a store that also holds one record of user 2. -/
theorem C7_delete_all_amended_witness :
    (delete_users_all_tokens
      ⟨[UserTokenModel.mk 1 1 "a" "T1" none 10 PlatformType.youtube,
        UserTokenModel.mk 2 1 "b" "T2" none 10 PlatformType.facebook,
        UserTokenModel.mk 3 2 "c" "T3" none 10 PlatformType.youtube],
       4⟩ 1).2 = true ∧
    (delete_users_all_tokens
      ⟨[UserTokenModel.mk 1 1 "a" "T1" none 10 PlatformType.youtube,
        UserTokenModel.mk 2 1 "b" "T2" none 10 PlatformType.facebook,
        UserTokenModel.mk 3 2 "c" "T3" none 10 PlatformType.youtube],
       4⟩ 1).1.rows.filter (fun r => r.user_id == 1) = [] ∧
    (∀ pf ef, (delete_users_all_tokens
      ⟨[UserTokenModel.mk 1 1 "a" "T1" none 10 PlatformType.youtube,
        UserTokenModel.mk 2 1 "b" "T2" none 10 PlatformType.facebook,
        UserTokenModel.mk 3 2 "c" "T3" none 10 PlatformType.youtube],
       4⟩ 1).1.rows.filter (matchesFilter 1 pf ef) = []) ∧
    (∀ r ∈ (DB.mk
      [UserTokenModel.mk 1 1 "a" "T1" none 10 PlatformType.youtube,
       UserTokenModel.mk 2 1 "b" "T2" none 10 PlatformType.facebook,
       UserTokenModel.mk 3 2 "c" "T3" none 10 PlatformType.youtube]
      4).rows, r.user_id ≠ 1 →
      r ∈ (delete_users_all_tokens
        ⟨[UserTokenModel.mk 1 1 "a" "T1" none 10 PlatformType.youtube,
          UserTokenModel.mk 2 1 "b" "T2" none 10 PlatformType.facebook,
          UserTokenModel.mk 3 2 "c" "T3" none 10 PlatformType.youtube],
         4⟩ 1).1.rows) :=
  C7_delete_all_amended
    ⟨[UserTokenModel.mk 1 1 "a" "T1" none 10 PlatformType.youtube,
      UserTokenModel.mk 2 1 "b" "T2" none 10 PlatformType.facebook,
      UserTokenModel.mk 3 2 "c" "T3" none 10 PlatformType.youtube],
     4⟩ 1

/-- C10: `revoke_all` (`delete_users_all_tokens`) for a user with zero
stored records succeeds, returns `true`, and leaves the store exactly as it
was; in general it never removes a record belonging to another user. -/
theorem C10_revoke_all_empty_noop (db : DB) (uid : Int) :
    (db.rows.filter (fun r => r.user_id == uid) = [] →
      delete_users_all_tokens db uid = (db, true)) ∧
    (delete_users_all_tokens db uid).2 = true ∧
    (∀ r ∈ db.rows, r.user_id ≠ uid →
      r ∈ (delete_users_all_tokens db uid).1.rows) := by
  refine ⟨?_, rfl, ?_⟩
  · intro h
    have hall : ∀ a ∈ db.rows, ¬(a.user_id == uid) = true :=
      List.filter_eq_nil_iff.mp h
    have : db.rows.filter (fun r => !(r.user_id == uid)) = db.rows := by
      rw [List.filter_eq_self]
      intro a ha
      simpa using hall a ha
    simp [delete_users_all_tokens, this]
  · intro r hr hne
    exact List.mem_filter.mpr ⟨hr, by simp [hne]⟩

/-- Witness for `C10_revoke_all_empty_noop`: revoking user 9, who has no
records, in a store holding one record of user 2. -/
theorem C10_revoke_all_empty_noop_witness :
    ((DB.mk [UserTokenModel.mk 3 2 "c" "T3" none 10 PlatformType.youtube]
        4).rows.filter (fun r => r.user_id == 9) = [] →
      delete_users_all_tokens
        ⟨[UserTokenModel.mk 3 2 "c" "T3" none 10 PlatformType.youtube], 4⟩
        9 =
      (⟨[UserTokenModel.mk 3 2 "c" "T3" none 10 PlatformType.youtube], 4⟩,
       true)) ∧
    (delete_users_all_tokens
      ⟨[UserTokenModel.mk 3 2 "c" "T3" none 10 PlatformType.youtube], 4⟩
      9).2 = true ∧
    (∀ r ∈ (DB.mk
      [UserTokenModel.mk 3 2 "c" "T3" none 10 PlatformType.youtube]
      4).rows, r.user_id ≠ 9 →
      r ∈ (delete_users_all_tokens
        ⟨[UserTokenModel.mk 3 2 "c" "T3" none 10 PlatformType.youtube], 4⟩
        9).1.rows) :=
  C10_revoke_all_empty_noop
    ⟨[UserTokenModel.mk 3 2 "c" "T3" none 10 PlatformType.youtube], 4⟩ 9

/-- C9: a provider-A initial-grant response that carries `access_token` but
omits `refresh_token` or `id_token` makes the whole ingest fail — the store
is returned exactly as it was, and no credential record is created or
modified for the call. -/
theorem C9_partial_grant_no_write (now : Int)
    (jsonSub : List Nat → Option String) (resp : YoutubeTokenResponse)
    (uid : Int) (db : DB) (atk : String)
    (hat : resp.access_token = some atk)
    (hmiss : resp.refresh_token = none ∨ resp.id_token = none) :
    (request_youtube_tokens now jsonSub resp uid db).1 = db ∧
    ∀ tok, (request_youtube_tokens now jsonSub resp uid db).2
      ≠ .ok tok := by
  rcases hmiss with hrt | hid
  · rcases hidt : resp.id_token with _ | idt
    · constructor
      · simp [request_youtube_tokens, hat, hidt]
      · intro tok
        simp [request_youtube_tokens, hat, hidt]
    · rcases hdec : decode_id_token jsonSub idt with e | sub
      · constructor
        · simp [request_youtube_tokens, hat, hidt, hdec]
        · intro tok
          simp [request_youtube_tokens, hat, hidt, hdec]
      · constructor
        · simp [request_youtube_tokens, hat, hidt, hdec, hrt]
        · intro tok
          simp [request_youtube_tokens, hat, hidt, hdec, hrt]
  · constructor
    · simp [request_youtube_tokens, hat, hid]
    · intro tok
      simp [request_youtube_tokens, hat, hid]

/-- Witness for `C9_partial_grant_no_write`: a response with an access
token but no refresh token, against a single-row store. -/
theorem C9_partial_grant_no_write_witness :
    (request_youtube_tokens 0 (fun _ => some "chan")
      ⟨some "T1", none, some "a.e30.b", some 3600⟩ 7
      ⟨[UserTokenModel.mk 3 2 "c" "T3" none 10 PlatformType.youtube],
       4⟩).1 =
      ⟨[UserTokenModel.mk 3 2 "c" "T3" none 10 PlatformType.youtube], 4⟩ ∧
    ∀ tok, (request_youtube_tokens 0 (fun _ => some "chan")
      ⟨some "T1", none, some "a.e30.b", some 3600⟩ 7
      ⟨[UserTokenModel.mk 3 2 "c" "T3" none 10 PlatformType.youtube],
       4⟩).2 ≠ .ok tok :=
  C9_partial_grant_no_write 0 (fun _ => some "chan")
    ⟨some "T1", none, some "a.e30.b", some 3600⟩ 7
    ⟨[UserTokenModel.mk 3 2 "c" "T3" none 10 PlatformType.youtube], 4⟩
    "T1" rfl (Or.inl rfl)

/-- Python's `"=" * (-n % 4)` pads to the next multiple of four: no padding
when the length already is one, otherwise exactly `4 - n % 4` characters.
-/
theorem pyPadLen_eq (n : Nat) :
    pyPadLen n = if n % 4 = 0 then 0 else 4 - n % 4 := by
  unfold pyPadLen
  by_cases h : n % 4 = 0
  · simp [h]
  · rw [if_neg h]
    have h4 : n % 4 < 4 := Nat.mod_lt _ (by norm_num)
    omega

/-- A record returned by a successful `create_user_token` carries the
ingested external account id (directly for an insert; via the matched
triple for an in-place update). -/
theorem create_user_token_external_id (now : Int) (ut : CreateUserToken)
    (db db' : DB) (r : UserTokenModel)
    (h : create_user_token now ut db = .ok (db', r)) :
    r.external_id = ut.external_id := by
  rcases hf : db.rows.filter
      (matchesTriple ut.user_id ut.external_id ut.platform)
      with _ | ⟨x, _ | ⟨y, rest⟩⟩
  · simp only [create_user_token, hf, Except.ok.injEq, Prod.mk.injEq] at h
    rw [← h.2]
  · have hx : matchesTriple ut.user_id ut.external_id ut.platform x
        = true := by
      have : x ∈ db.rows.filter
          (matchesTriple ut.user_id ut.external_id ut.platform) := by
        rw [hf]; exact List.mem_singleton_self x
      exact (List.mem_filter.mp this).2
    simp only [matchesTriple, Bool.and_eq_true, beq_iff_eq] at hx
    simp only [create_user_token, hf, Except.ok.injEq, Prod.mk.injEq] at h
    rw [← h.2]
    exact hx.1.2
  · simp only [create_user_token, hf] at h
    simp at h

/-- A successful `request_youtube_tokens` ingested exactly the subject that
`decode_id_token` extracted from the response's identity token. -/
theorem request_youtube_tokens_ok_decode (now : Int)
    (jsonSub : List Nat → Option String) (resp : YoutubeTokenResponse)
    (uid : Int) (db db' : DB) (tok : UserTokenModel)
    (h : request_youtube_tokens now jsonSub resp uid db = (db', .ok tok))
    (idt : String) (hidt : resp.id_token = some idt) :
    decode_id_token jsonSub idt = .ok tok.external_id := by
  rcases hat : resp.access_token with _ | atk
  · simp [request_youtube_tokens, hat] at h
  · simp only [request_youtube_tokens, hat, hidt] at h
    rcases hdec : decode_id_token jsonSub idt with e | sub
    · simp only [hdec] at h
      simp at h
    · simp only [hdec] at h
      rcases hrt : resp.refresh_token with _ | rt
      · simp only [hrt] at h
        simp at h
      · simp only [hrt] at h
        rcases hei : resp.expires_in with _ | ei
        · simp only [hei] at h
          simp at h
        · simp only [hei] at h
          rcases hc : create_user_token now
              ⟨uid, sub, ⟨atk, some rt, ei⟩, PlatformType.youtube⟩ db
              with e | ⟨db2, tok2⟩
          · simp only [hc] at h
            simp at h
          · simp only [hc, Prod.mk.injEq, Except.ok.injEq] at h
            have hext := create_user_token_external_id now
              ⟨uid, sub, ⟨atk, some rt, ei⟩, PlatformType.youtube⟩
              db db2 tok2 hc
            rw [← h.2, hext]

/-- `decode_id_token` agrees with the specification's description of the
payload decoding, and rejects tokens without exactly three segments. -/
theorem decode_spec_agree (jsonSub : List Nat → Option String)
    (idt : String) :
    (∀ s, decode_id_token jsonSub idt = .ok s ↔
      spec_subject_of_id_token jsonSub idt = some s) ∧
    ((idt.splitOn ".").length ≠ 3 →
      decode_id_token jsonSub idt
        = .error (.valueError "Invalid ID token")) := by
  rcases hsplit : idt.splitOn "."
    with _ | ⟨a, _ | ⟨b, _ | ⟨c, _ | ⟨d, rest⟩⟩⟩⟩
  · constructor
    · intro s
      simp [decode_id_token, spec_subject_of_id_token, hsplit]
    · intro _
      simp [decode_id_token, hsplit]
  · constructor
    · intro s
      simp [decode_id_token, spec_subject_of_id_token, hsplit]
    · intro _
      simp [decode_id_token, hsplit]
  · constructor
    · intro s
      simp [decode_id_token, spec_subject_of_id_token, hsplit]
    · intro _
      simp [decode_id_token, hsplit]
  · constructor
    · intro s
      simp only [decode_id_token, spec_subject_of_id_token, hsplit,
        List.length_cons, List.length_nil, List.getD, pyPadLen_eq]
      norm_num
      rcases hb : urlsafe_b64decode
          (b ++ String.mk (List.replicate
            (if b.length % 4 = 0 then 0 else 4 - b.length % 4) '='))
          with _ | bytes
      · simp
      · rcases hj : jsonSub bytes with _ | s0 <;> simp [hj]
    · intro hlen
      exact absurd (by simp [hsplit]) hlen
  · constructor
    · intro s
      simp [decode_id_token, spec_subject_of_id_token, hsplit]
    · intro _
      simp [decode_id_token, hsplit]

/-- C8: for a well-formed identity token of exactly three dot-separated
segments, the subject `decode_id_token` extracts — and hence the external
account id a successful provider-A ingest stores — equals the value the
specification describes: pad the middle segment with `=` to a multiple of
four, base64url-decode it, parse the bytes as JSON and read the subject
field (`spec_subject_of_id_token`); a token not made of exactly three
segments is rejected with `ValueError`. -/
theorem C8_id_token_subject (jsonSub : List Nat → Option String)
    (idt : String) :
    (∀ s, decode_id_token jsonSub idt = .ok s ↔
      spec_subject_of_id_token jsonSub idt = some s) ∧
    ((idt.splitOn ".").length ≠ 3 →
      decode_id_token jsonSub idt
        = .error (.valueError "Invalid ID token")) ∧
    (∀ now resp uid db db' tok,
      request_youtube_tokens now jsonSub resp uid db = (db', .ok tok) →
      resp.id_token = some idt →
      spec_subject_of_id_token jsonSub idt = some tok.external_id) := by
  refine ⟨(decode_spec_agree jsonSub idt).1,
    (decode_spec_agree jsonSub idt).2, ?_⟩
  intro now resp uid db db' tok h hidt
  exact ((decode_spec_agree jsonSub idt).1 tok.external_id).mp
    (request_youtube_tokens_ok_decode now jsonSub resp uid db db' tok h
      idt hidt)

/-- Witness for `C8_id_token_subject`: the token `"a.e30.b"` (payload
`"e30"`, base64url of the two bytes `{}`), with a subject extractor that
answers `"chan_1"` on those bytes; its ingest for user 7 stores external
id `"chan_1"`. -/
theorem C8_id_token_subject_witness :
    (∀ s, decode_id_token
        (fun bs => if bs = [123, 125] then some "chan_1" else none)
        "a.e30.b" = .ok s ↔
      spec_subject_of_id_token
        (fun bs => if bs = [123, 125] then some "chan_1" else none)
        "a.e30.b" = some s) ∧
    (("a.e30.b".splitOn ".").length ≠ 3 →
      decode_id_token
        (fun bs => if bs = [123, 125] then some "chan_1" else none)
        "a.e30.b" = .error (.valueError "Invalid ID token")) ∧
    (∀ now resp uid db db' tok,
      request_youtube_tokens now
        (fun bs => if bs = [123, 125] then some "chan_1" else none)
        resp uid db = (db', .ok tok) →
      resp.id_token = some "a.e30.b" →
      spec_subject_of_id_token
        (fun bs => if bs = [123, 125] then some "chan_1" else none)
        "a.e30.b" = some tok.external_id) :=
  C8_id_token_subject
    (fun bs => if bs = [123, 125] then some "chan_1" else none) "a.e30.b"
